import Mathlib

/-!
Verification of the landmark-to-metrics geometry engine and multi-hand
frame assembly of the Hand-misalignment-Detector repository
(`src/components/CameraFeed.tsx` and `src/types/HandData.ts`).

The repository contains two versions of `CameraFeed.tsx`.  The first
("unguarded") version dereferences fingertip landmarks without presence
checks in `processFingerPairAngles` and in the gap computation; the second
("guarded") version checks every landmark before use and additionally
defines `calculateSideBend` / `processSideAngles`.  Both versions share
identical `calculateAngle`, `FINGER_JOINTS`, `FINGER_TIPS` and
`processAngles`.  The shared geometry is embedded once below; the two
frame-assembly variants live in namespaces `Unguarded` and `Guarded`.

JavaScript `Math.atan2` / `Math.hypot` over IEEE doubles are modelled by
their exact real-number counterparts: `atan2` is defined by the standard
case split on quadrants with range (-pi, pi] and `atan2 0 0 = 0`
(matching `Math.atan2(0, 0) = 0`), and `hypot a b = Real.sqrt (a^2 + b^2)`.
A JavaScript array access `lm[i]` that may be out of bounds is modelled by
`List.get?`; an in-bounds landmark object is always truthy in JavaScript
(even the zero vector), so the truthiness tests `lm[a] && lm[b] && lm[c]`
are modelled as `Option.isSome` pattern matches on `List.get?`.
-/

open Real

/-- `HandLandmark` from `src/types/HandData.ts`: a 3D point. -/
structure HandLandmark where
  x : ℝ
  y : ℝ
  z : ℝ

/-- A raw landmark as delivered by the detector: `z` may be absent
(`l.z ?? 0` in the source defaults it to 0). -/
structure RawLandmark where
  x : ℝ
  y : ℝ
  z : Option ℝ

/-- `landmarks.map((l) => ({x: l.x, y: l.y, z: l.z ?? 0}))` applied to one
raw landmark. -/
def normalizeLandmark (l : RawLandmark) : HandLandmark :=
  ⟨l.x, l.y, l.z.getD 0⟩

/-- One raw detected hand: the detector reports a landmark list together
with a handedness label (`results.multiHandLandmarks[i]` paired with
`results.multiHandedness[i].label`). -/
structure RawHand where
  landmarks : List RawLandmark
  label : String

/-- `FingerAngles` from `src/types/HandData.ts`: one angle per named finger. -/
structure FingerAngles where
  Thumb : ℝ
  Index : ℝ
  Middle : ℝ
  Ring : ℝ
  Pinky : ℝ

/-- The five named fingers (the keys of `FINGER_JOINTS`). -/
inductive Finger where
  | Thumb
  | Index
  | Middle
  | Ring
  | Pinky
deriving DecidableEq

/-- The entries of a `FingerAngles` object, in the key order of the source
object literal. -/
def FingerAngles.entries (A : FingerAngles) : List (Finger × ℝ) :=
  [(.Thumb, A.Thumb), (.Index, A.Index), (.Middle, A.Middle),
   (.Ring, A.Ring), (.Pinky, A.Pinky)]

/-- `FINGER_JOINTS`: the fixed joint triple (base, middle joint, tip) of
each finger. -/
def FINGER_JOINTS : Finger → ℕ × ℕ × ℕ
  | .Thumb => (1, 2, 4)
  | .Index => (5, 6, 8)
  | .Middle => (9, 10, 12)
  | .Ring => (13, 14, 16)
  | .Pinky => (17, 18, 20)

/-- `FINGER_TIPS = [4, 8, 12, 16, 20]` (thumb to pinky fingertips). -/
def FINGER_TIPS : List ℕ := [4, 8, 12, 16, 20]

/-- Real-number model of JavaScript `Math.atan2 y x`: the polar angle of
the point `(x, y)`, in `(-pi, pi]`, with `atan2 0 0 = 0`. -/
noncomputable def atan2 (y x : ℝ) : ℝ :=
  if 0 < x then arctan (y / x)
  else if x < 0 then
    if 0 ≤ y then arctan (y / x) + π else arctan (y / x) - π
  else
    if 0 < y then π / 2 else if y < 0 then -(π / 2) else 0

lemma arctan_nonpos_of_nonpos {x : ℝ} (h : x ≤ 0) : arctan x ≤ 0 := by
  have := arctan_strictMono.monotone h
  simpa [arctan_zero] using this

lemma arctan_pos_of_pos {x : ℝ} (h : 0 < x) : 0 < arctan x := by
  have := arctan_strictMono h
  simpa [arctan_zero] using this

lemma neg_pi_lt_atan2 (y x : ℝ) : -π < atan2 y x := by
  have hπ := pi_pos
  unfold atan2
  split_ifs with h1 h2 h3 h4 h5
  · have := neg_pi_div_two_lt_arctan (y / x)
    linarith
  · have := neg_pi_div_two_lt_arctan (y / x)
    linarith
  · have hyx : 0 < y / x := div_pos_of_neg_of_neg (lt_of_not_le h3) h2
    have := arctan_pos_of_pos hyx
    linarith
  · linarith
  · linarith
  · linarith

lemma atan2_le_pi (y x : ℝ) : atan2 y x ≤ π := by
  have hπ := pi_pos
  unfold atan2
  split_ifs with h1 h2 h3 h4 h5
  · have := arctan_lt_pi_div_two (y / x)
    linarith
  · have hyx : y / x ≤ 0 := div_nonpos_of_nonneg_of_nonpos h3 h2.le
    have := arctan_nonpos_of_nonpos hyx
    linarith
  · have := arctan_lt_pi_div_two (y / x)
    linarith
  · linarith
  · linarith
  · linarith

lemma abs_atan2_le_pi (y x : ℝ) : |atan2 y x| ≤ π :=
  abs_le.mpr ⟨(neg_pi_lt_atan2 y x).le, atan2_le_pi y x⟩

lemma atan2_zero_one : atan2 0 1 = 0 := by
  unfold atan2
  rw [if_pos one_pos]
  norm_num [arctan_zero]

lemma atan2_zero_neg_one : atan2 0 (-1) = π := by
  unfold atan2
  rw [if_neg (by norm_num), if_pos (by norm_num), if_pos le_rfl]
  norm_num [arctan_zero]

/-- Real-number model of `Math.hypot a b`. -/
noncomputable def hypot (a b : ℝ) : ℝ := Real.sqrt (a ^ 2 + b ^ 2)

/-- `calculateAngle` (identical in both versions of `CameraFeed.tsx`):
`rad = atan2(c.y - b.y, c.x - b.x) - atan2(a.y - b.y, a.x - b.x)`,
`deg = abs(rad * (180 / PI))`, reflected as `360 - deg` when above 180. -/
noncomputable def calculateAngle (a b c : HandLandmark) : ℝ :=
  let rad := atan2 (c.y - b.y) (c.x - b.x) - atan2 (a.y - b.y) (a.x - b.x)
  let deg := |rad * (180 / π)|
  if deg > 180 then 360 - deg else deg

/-- `calculateSideBend` (guarded version only): the same formula with each
`atan2(Δy, Δx)` replaced by `atan2(Δx, Δz)`. -/
noncomputable def calculateSideBend (a b c : HandLandmark) : ℝ :=
  let rad := atan2 (c.x - b.x) (c.z - b.z) - atan2 (a.x - b.x) (a.z - b.z)
  let deg := |rad * (180 / π)|
  if deg > 180 then 360 - deg else deg

/-- The body of the `forEach` in `processAngles` for one finger: if the
three joint-triple landmarks `lm[a] && lm[b] && lm[c]` are all present,
compute `calculateAngle`, otherwise leave the initial value 0. -/
noncomputable def fingerAngle (lm : List HandLandmark) (f : Finger) : ℝ :=
  match lm.get? (FINGER_JOINTS f).1, lm.get? (FINGER_JOINTS f).2.1,
      lm.get? (FINGER_JOINTS f).2.2 with
  | some a, some b, some c => calculateAngle a b c
  | _, _, _ => 0

/-- `processAngles` (identical in both versions): every finger starts at 0
and is overwritten only when its whole joint triple is present. -/
noncomputable def processAngles (lm : List HandLandmark) : FingerAngles :=
  { Thumb := fingerAngle lm .Thumb
    Index := fingerAngle lm .Index
    Middle := fingerAngle lm .Middle
    Ring := fingerAngle lm .Ring
    Pinky := fingerAngle lm .Pinky }

/-- One finger of `processSideAngles` (guarded version): same joint triple
and presence test as `fingerAngle`, with `calculateSideBend` instead of
`calculateAngle`. -/
noncomputable def sideFingerAngle (lm : List HandLandmark) (f : Finger) : ℝ :=
  match lm.get? (FINGER_JOINTS f).1, lm.get? (FINGER_JOINTS f).2.1,
      lm.get? (FINGER_JOINTS f).2.2 with
  | some a, some b, some c => calculateSideBend a b c
  | _, _, _ => 0

/-- `processSideAngles` (guarded version only). -/
noncomputable def processSideAngles (lm : List HandLandmark) : FingerAngles :=
  { Thumb := sideFingerAngle lm .Thumb
    Index := sideFingerAngle lm .Index
    Middle := sideFingerAngle lm .Middle
    Ring := sideFingerAngle lm .Ring
    Pinky := sideFingerAngle lm .Pinky }

/-- The object key `` `${FINGER_TIPS[i]}_${FINGER_TIPS[i+1]}` ``. -/
def pairKey (i j : ℕ) : String := toString i ++ "_" ++ toString j

/-- `HandData` from `src/types/HandData.ts` (the `Record<string, number>`
field `fingerPairAngles` is modelled as a key-value list in insertion
order; `timestamp` is the `Date.now()` value passed in by the caller). -/
structure HandData where
  landmarks : List HandLandmark
  fingerAngles : FingerAngles
  fingerPairAngles : List (String × ℝ)
  handedness : String
  gap : ℝ
  timestamp : ℕ

/-- Sequencing of a fallible computation over a list, modelling a
JavaScript loop whose body may throw: the first failure aborts the whole
loop and no partial result is returned. -/
def mapOrFail (f : α → Option β) : List α → Option (List β)
  | [] => some []
  | a :: l =>
    match f a with
    | none => none
    | some b =>
      match mapOrFail f l with
      | none => none
      | some bs => some (b :: bs)

namespace Guarded

/-- `processFingerPairAngles` (guarded version): for each `i` in
`0 .. FINGER_TIPS.length - 2`, if `tip1 && tip2` are both present, insert
`abs((atan2(dy, dx) * 180) / PI)` under key `"tip1_tip2"`; otherwise the
pair is skipped. -/
noncomputable def processFingerPairAngles (lm : List HandLandmark) :
    List (String × ℝ) :=
  (List.range (FINGER_TIPS.length - 1)).filterMap fun i =>
    match lm.get? (FINGER_TIPS.getD i 0), lm.get? (FINGER_TIPS.getD (i + 1) 0) with
    | some tip1, some tip2 =>
      some (pairKey (FINGER_TIPS.getD i 0) (FINGER_TIPS.getD (i + 1) 0),
        |atan2 (tip2.y - tip1.y) (tip2.x - tip1.x) * 180 / π|)
    | _, _ => none

/-- The guarded gap: `thumbTip && indexTip ? Math.hypot(...) : 0`. -/
noncomputable def gap (lm : List HandLandmark) : ℝ :=
  match lm.get? 4, lm.get? 8 with
  | some thumbTip, some indexTip =>
    hypot (indexTip.x - thumbTip.x) (indexTip.y - thumbTip.y)
  | _, _ => 0

/-- The body of the guarded `onResults` loop for one detected hand:
normalize the landmarks, run the extractor, attach handedness and
timestamp.  (`sideBendAngles` is computed in the source but used only for
the canvas overlay; it is not a field of `HandData`.) -/
noncomputable def buildHand (now : ℕ) (rh : RawHand) : HandData :=
  let lm := rh.landmarks.map normalizeLandmark
  { landmarks := lm
    fingerAngles := processAngles lm
    fingerPairAngles := processFingerPairAngles lm
    handedness := rh.label
    gap := gap lm
    timestamp := now }

/-- The guarded `onResults` frame assembly: one record per reported hand,
in detector order. -/
noncomputable def onResults (now : ℕ) (rawHands : List RawHand) :
    List HandData :=
  rawHands.map (buildHand now)

end Guarded

namespace Unguarded

/-- `processFingerPairAngles` (unguarded version): reads `tip1.x`,
`tip2.x` without a presence check, so a missing fingertip landmark throws
a `TypeError` (modelled as `none`) and aborts the whole computation. -/
noncomputable def processFingerPairAngles (lm : List HandLandmark) :
    Option (List (String × ℝ)) :=
  mapOrFail (fun i =>
    match lm.get? (FINGER_TIPS.getD i 0), lm.get? (FINGER_TIPS.getD (i + 1) 0) with
    | some tip1, some tip2 =>
      some (pairKey (FINGER_TIPS.getD i 0) (FINGER_TIPS.getD (i + 1) 0),
        |atan2 (tip2.y - tip1.y) (tip2.x - tip1.x) * 180 / π|)
    | _, _ => none)
    (List.range (FINGER_TIPS.length - 1))

/-- The unguarded gap: `Math.hypot(indexTip.x - thumbTip.x, ...)` with
`thumbTip = lm[4]`, `indexTip = lm[8]` dereferenced unchecked. -/
noncomputable def gap (lm : List HandLandmark) : Option ℝ :=
  match lm.get? 4, lm.get? 8 with
  | some thumbTip, some indexTip =>
    some (hypot (indexTip.x - thumbTip.x) (indexTip.y - thumbTip.y))
  | _, _ => none

/-- The body of the unguarded `onResults` loop for one detected hand:
`processAngles` is total, but `processFingerPairAngles` and the gap
computation throw on a missing fingertip. -/
noncomputable def buildHand (now : ℕ) (rh : RawHand) : Option HandData :=
  let lm := rh.landmarks.map normalizeLandmark
  let fingerAngles := processAngles lm
  match processFingerPairAngles lm with
  | none => none
  | some fingerPairAngles =>
    match gap lm with
    | none => none
    | some g =>
      some { landmarks := lm
             fingerAngles := fingerAngles
             fingerPairAngles := fingerPairAngles
             handedness := rh.label
             gap := g
             timestamp := now }

/-- The unguarded `onResults` frame assembly: an exception thrown while
processing any hand propagates out of the `forEach`, so no hand list is
delivered at all for that frame. -/
noncomputable def onResults (now : ℕ) (rawHands : List RawHand) :
    Option (List HandData) :=
  mapOrFail (buildHand now) rawHands

end Unguarded

/-- Look up one finger's angle in a `FingerAngles` object. -/
def FingerAngles.get (A : FingerAngles) : Finger → ℝ
  | .Thumb => A.Thumb
  | .Index => A.Index
  | .Middle => A.Middle
  | .Ring => A.Ring
  | .Pinky => A.Pinky

/-- The spec's "(x, y) replaced by (z, x)" change of basis: the point whose
frontal-plane coordinates are the original point's `(z, x)` pair.  The
third coordinate is irrelevant to `calculateAngle`. -/
def zxOf (p : HandLandmark) : HandLandmark := ⟨p.z, p.x, p.y⟩

/-- The 4 fixed consecutive fingertip pairs named by the spec:
(4,8), (8,12), (12,16), (16,20). -/
def PAIRS : List (ℕ × ℕ) := [(4, 8), (8, 12), (12, 16), (16, 20)]

/-- The spec's description of one fingertip-pair entry, used to compare
the source loop against the spec (§4.1): present exactly when both tip
landmarks are present, keyed `"<index1>_<index2>"`, valued
`abs(atan2(dy, dx) * 180 / pi)`. -/
noncomputable def specPairEntry (lm : List HandLandmark) (ij : ℕ × ℕ) :
    Option (String × ℝ) :=
  match lm.get? ij.1, lm.get? ij.2 with
  | some tip1, some tip2 =>
    some (pairKey ij.1 ij.2,
      |atan2 (tip2.y - tip1.y) (tip2.x - tip1.x) * 180 / π|)
  | _, _ => none

/-- Sample landmark `(1, 0, 0)`. -/
def lmP : HandLandmark := ⟨1, 0, 0⟩

/-- Sample landmark `(2, 0, 0)`. -/
def lmQ : HandLandmark := ⟨2, 0, 0⟩

/-- Sample landmark: the zero vector `(0, 0, 0)`. -/
def lmZero : HandLandmark := ⟨0, 0, 0⟩

/-- A complete 21-landmark hand whose index fingertip (index 8) is the
zero vector: index 5 is `(2,0,0)`, index 6 is `(1,0,0)`, index 8 is
`(0,0,0)`, and every other landmark is `(1,0,0)`. -/
def zeroFingertipHand : List HandLandmark :=
  [lmP, lmP, lmP, lmP, lmP, lmQ, lmP, lmP, lmZero,
   lmP, lmP, lmP, lmP, lmP, lmP, lmP, lmP, lmP, lmP, lmP, lmP]

/-- A detected hand with a single raw landmark (landmark count 1, not 21). -/
def shortRawHand : RawHand := ⟨[⟨0, 0, none⟩], "Left"⟩

/-- A detected hand with an empty landmark list. -/
def emptyRawHand : RawHand := ⟨[], "Left"⟩

/-- A detected hand with the full 21 landmarks. -/
def fullRawHand : RawHand := ⟨List.replicate 21 ⟨0, 0, some 0⟩, "Right"⟩

/-- The spec's gap scenario: thumb tip (index 4) at `(0,0,0)`, index tip
(index 8) at `(3,4,0)`. -/
def gapScenario : List HandLandmark :=
  [lmZero, lmZero, lmZero, lmZero, lmZero, lmZero, lmZero, lmZero, ⟨3, 4, 0⟩]

/-- A 9-landmark list: only fingertips 4 and 8 are present among the five
fingertips, so exactly the pair (4,8) is emitted. -/
def pairScenario : List HandLandmark :=
  [lmZero, lmZero, lmZero, lmZero, lmZero, lmZero, lmZero, lmZero, lmP]

/-- A 5-landmark list agreeing with `agreeOther` at the thumb joint triple
indices 1, 2, 4. -/
def agreeBase : List HandLandmark := [lmP, lmP, lmP, lmP, lmP]

/-- A 5-landmark list agreeing with `agreeBase` at indices 1, 2, 4 and
differing at indices 0 and 3. -/
def agreeOther : List HandLandmark := [lmQ, lmP, lmP, lmQ, lmP]

lemma calculateAngle_mem (a b c : HandLandmark) :
    0 ≤ calculateAngle a b c ∧ calculateAngle a b c ≤ 180 := by
  have hπ := pi_pos
  have hu₁ := neg_pi_lt_atan2 (c.y - b.y) (c.x - b.x)
  have hu₂ := atan2_le_pi (c.y - b.y) (c.x - b.x)
  have hv₁ := neg_pi_lt_atan2 (a.y - b.y) (a.x - b.x)
  have hv₂ := atan2_le_pi (a.y - b.y) (a.x - b.x)
  simp only [calculateAngle]
  set u := atan2 (c.y - b.y) (c.x - b.x) with hu
  set v := atan2 (a.y - b.y) (a.x - b.x) with hv
  have hk : (0 : ℝ) < 180 / π := by positivity
  have habs : |u - v| < 2 * π := abs_lt.mpr ⟨by linarith, by linarith⟩
  have h0 : 0 ≤ |(u - v) * (180 / π)| := abs_nonneg _
  have h360 : |(u - v) * (180 / π)| < 360 := by
    rw [abs_mul, abs_of_pos hk]
    have h1 := mul_lt_mul_of_pos_right habs hk
    have h2 : 2 * π * (180 / π) = 360 := by
      field_simp
      ring
    linarith
  split_ifs with h
  · exact ⟨by linarith, by linarith⟩
  · exact ⟨h0, by linarith [not_lt.mp h]⟩

lemma calculateAngle_self (a : HandLandmark) : calculateAngle a a a = 0 := by
  simp only [calculateAngle, sub_self, zero_mul, abs_zero]
  norm_num

lemma pairValue_bounds (y x : ℝ) :
    0 ≤ |atan2 y x * 180 / π| ∧ |atan2 y x * 180 / π| ≤ 180 := by
  refine ⟨abs_nonneg _, ?_⟩
  have h := abs_atan2_le_pi y x
  have hπ := pi_pos
  rw [abs_div, abs_of_pos hπ, abs_mul,
    abs_of_nonneg (by norm_num : (0 : ℝ) ≤ 180), div_le_iff₀ hπ]
  nlinarith

/-- C4: for all 3-point inputs the bend angle `calculateAngle` equals the
reflected absolute difference of the two `atan2` polar angles converted to
degrees, lies in the interval [0, 180], and is 0 (not NaN) for coincident
points `a = b = c`. -/
theorem calculateAngle_range_and_degenerate :
    (∀ a b c : HandLandmark,
      calculateAngle a b c =
        if |(atan2 (c.y - b.y) (c.x - b.x) - atan2 (a.y - b.y) (a.x - b.x))
            * (180 / π)| > 180
        then 360 - |(atan2 (c.y - b.y) (c.x - b.x) - atan2 (a.y - b.y) (a.x - b.x))
            * (180 / π)|
        else |(atan2 (c.y - b.y) (c.x - b.x) - atan2 (a.y - b.y) (a.x - b.x))
            * (180 / π)|) ∧
    (∀ a b c : HandLandmark,
      0 ≤ calculateAngle a b c ∧ calculateAngle a b c ≤ 180) ∧
    (∀ a : HandLandmark, calculateAngle a a a = 0) :=
  ⟨fun _ _ _ => rfl, calculateAngle_mem, calculateAngle_self⟩

/-- C7: the bend angle is symmetric under swapping the base and tip
points: `calculateAngle a b c = calculateAngle c b a`. -/
theorem calculateAngle_swap_symm :
    ∀ a b c : HandLandmark, calculateAngle a b c = calculateAngle c b a := by
  intro a b c
  simp only [calculateAngle]
  rw [show (atan2 (a.y - b.y) (a.x - b.x) - atan2 (c.y - b.y) (c.x - b.x))
        * (180 / π)
      = -((atan2 (c.y - b.y) (c.x - b.x) - atan2 (a.y - b.y) (a.x - b.x))
        * (180 / π)) by ring, abs_neg]

/-- C8: the side-bend angle is the bend-angle formula evaluated in the
(z, x) plane — `calculateSideBend` equals `calculateAngle` applied to the
points with each coordinate pair (x, y) replaced by (z, x) — and
`processSideAngles` uses the identical per-finger joint triples and the
identical missing-landmark policy (default 0) as `processAngles`. -/
theorem sideBend_is_angle_in_zx_plane :
    (∀ a b c : HandLandmark,
      calculateSideBend a b c = calculateAngle (zxOf a) (zxOf b) (zxOf c)) ∧
    (∀ lm : List HandLandmark,
      processSideAngles lm = processAngles (lm.map zxOf)) := by
  have h1 : ∀ a b c : HandLandmark,
      calculateSideBend a b c = calculateAngle (zxOf a) (zxOf b) (zxOf c) :=
    fun _ _ _ => rfl
  refine ⟨h1, fun lm => ?_⟩
  have hf : ∀ f, sideFingerAngle lm f = fingerAngle (lm.map zxOf) f := by
    intro f
    simp only [sideFingerAngle, fingerAngle, List.get?_map]
    rcases lm.get? (FINGER_JOINTS f).1 with _ | a <;>
      rcases lm.get? (FINGER_JOINTS f).2.1 with _ | b <;>
      rcases lm.get? (FINGER_JOINTS f).2.2 with _ | c <;>
      simp [h1]
  simp [processSideAngles, processAngles, hf]

/-- C10: for each finger `f`, the angle computed by `processAngles`
depends only on the three landmarks at the finger's fixed joint-triple
indices: two landmark lists agreeing at those indices give the same
angle, regardless of every other landmark. -/
theorem processAngles_depends_only_on_triple :
    ∀ (lm1 lm2 : List HandLandmark) (f : Finger),
      lm1.get? (FINGER_JOINTS f).1 = lm2.get? (FINGER_JOINTS f).1 →
      lm1.get? (FINGER_JOINTS f).2.1 = lm2.get? (FINGER_JOINTS f).2.1 →
      lm1.get? (FINGER_JOINTS f).2.2 = lm2.get? (FINGER_JOINTS f).2.2 →
      (processAngles lm1).get f = (processAngles lm2).get f := by
  intro lm1 lm2 f h1 h2 h3
  have key : fingerAngle lm1 f = fingerAngle lm2 f := by
    simp only [fingerAngle, h1, h2, h3]
  cases f <;> simpa [processAngles, FingerAngles.get] using key

/-- Witness for C10: `agreeBase` and `agreeOther` agree at the thumb
joint-triple indices 1, 2, 4 (and differ at indices 0 and 3), so the
thumb angle is the same. -/
theorem processAngles_depends_witness :
    (processAngles agreeBase).get .Thumb = (processAngles agreeOther).get .Thumb :=
  processAngles_depends_only_on_triple agreeBase agreeOther .Thumb rfl rfl rfl

/-- C3 (amended): `fingerAngles` always has exactly the 5 named entries,
and a finger whose joint-triple contains an absent (out-of-range)
landmark keeps the default angle 0. -/
theorem processAngles_five_entries_default_zero :
    ∀ lm : List HandLandmark,
      (processAngles lm).entries.map Prod.fst
        = [.Thumb, .Index, .Middle, .Ring, .Pinky] ∧
      (processAngles lm).entries.length = 5 ∧
      ∀ f : Finger,
        (lm.get? (FINGER_JOINTS f).1 = none ∨
         lm.get? (FINGER_JOINTS f).2.1 = none ∨
         lm.get? (FINGER_JOINTS f).2.2 = none) →
        (processAngles lm).get f = 0 := by
  intro lm
  refine ⟨rfl, rfl, ?_⟩
  intro f h
  have key : fingerAngle lm f = 0 := by
    simp only [fingerAngle]
    rcases hA : lm.get? (FINGER_JOINTS f).1 with _ | a
    · rfl
    rcases hB : lm.get? (FINGER_JOINTS f).2.1 with _ | b
    · rfl
    rcases hC : lm.get? (FINGER_JOINTS f).2.2 with _ | c
    · rfl
    rcases h with h | h | h
    · rw [h] at hA
      exact Option.noConfusion hA
    · rw [h] at hB
      exact Option.noConfusion hB
    · rw [h] at hC
      exact Option.noConfusion hC
  cases f <;> simpa [processAngles, FingerAngles.get] using key

/-- Witness for C3's amended theorem, at the empty landmark list and the
thumb (whose base landmark 1 is then absent). -/
theorem processAngles_default_witness :
    (processAngles []).entries.length = 5 ∧ (processAngles []).get .Thumb = 0 :=
  ⟨(processAngles_five_entries_default_zero []).2.1,
   (processAngles_five_entries_default_zero []).2.2 .Thumb (Or.inl rfl)⟩

/-- Counterexample for C3 as stated: `zeroFingertipHand` has all 21
landmarks present with the index fingertip (landmark 8) equal to the zero
vector, yet the index finger's angle is computed from the coordinates
(here 180), not defaulted to 0 — in JavaScript a zero-vector landmark
object is truthy, so it is not "missing-equivalent". -/
theorem zero_fingertip_angle_not_defaulted :
    zeroFingertipHand.length = 21 ∧
    zeroFingertipHand.get? 8 = some lmZero ∧
    (processAngles zeroFingertipHand).Index = 180 ∧ (180 : ℝ) ≠ 0 := by
  refine ⟨rfl, rfl, ?_, by norm_num⟩
  have h : (processAngles zeroFingertipHand).Index
      = calculateAngle lmQ lmP lmZero := rfl
  rw [h]
  simp only [calculateAngle, lmQ, lmP, lmZero]
  norm_num
  rw [atan2_zero_neg_one, atan2_zero_one]
  have hk : π * (180 / π) = 180 := by
    field_simp
  rw [sub_zero, hk]
  norm_num

/-- Counterexample for C1 as stated: a detected hand whose landmark list
has only 1 entry is not excluded by the guarded `onResults` — its record
is assembled and emitted with a landmarks sequence of length 1, not 21. -/
theorem short_hand_not_excluded :
    Guarded.onResults 0 [shortRawHand] = [Guarded.buildHand 0 shortRawHand] ∧
    (Guarded.buildHand 0 shortRawHand).landmarks.length = 1 ∧ (1 : ℕ) ≠ 21 :=
  ⟨rfl, rfl, by decide⟩

/-- C1 (amended): `onResults` performs no landmark-count validation — it
assembles one record per detected hand, in order, whose landmark list is
the normalized raw list; a hand with fewer than 21 landmarks is emitted
with that shorter landmarks sequence rather than being excluded. -/
theorem onResults_no_count_filter :
    ∀ (now : ℕ) (rawHands : List RawHand),
      (Guarded.onResults now rawHands).map (fun h => h.landmarks.length)
        = rawHands.map (fun rh => rh.landmarks.length) := by
  intro now rawHands
  simp [Guarded.onResults, Guarded.buildHand, List.map_map, Function.comp]

/-- C2: the claim is right and the unguarded version of the code is wrong.
On a frame with an empty-landmark hand followed by a complete 21-landmark
hand, the unguarded `onResults` throws (`processFingerPairAngles`
dereferences `lm[4].x` without a presence check), so no list at all is
delivered and the valid second hand's record is lost; the guarded version
of the same file assembles both records, as the claim demands. -/
theorem unguarded_onResults_throws :
    Unguarded.onResults 0 [emptyRawHand, fullRawHand] = none ∧
    (Guarded.onResults 0 [emptyRawHand, fullRawHand]).length = 2 :=
  ⟨rfl, rfl⟩

/-- C6: the gap metric is the Euclidean distance in the (x, y) plane
between landmark 4 and landmark 8 when both are present, 0 when either is
missing, always nonnegative; and the spec scenario — thumb tip (0,0,0),
index tip (3,4,0) — gives gap 5. -/
theorem gap_spec :
    (∀ lm : List HandLandmark, 0 ≤ Guarded.gap lm) ∧
    (∀ (lm : List HandLandmark) (t i : HandLandmark),
      lm.get? 4 = some t → lm.get? 8 = some i →
      Guarded.gap lm = hypot (i.x - t.x) (i.y - t.y)) ∧
    (∀ lm : List HandLandmark,
      lm.get? 4 = none ∨ lm.get? 8 = none → Guarded.gap lm = 0) ∧
    Guarded.gap gapScenario = 5 := by
  refine ⟨?_, ?_, ?_, ?_⟩
  · intro lm
    simp only [Guarded.gap]
    rcases lm.get? 4 with _ | t <;> rcases lm.get? 8 with _ | i <;>
      simp [hypot, Real.sqrt_nonneg]
  · intro lm t i h4 h8
    simp only [Guarded.gap, h4, h8]
  · intro lm h
    simp only [Guarded.gap]
    rcases h4 : lm.get? 4 with _ | t
    · rfl
    rcases h8 : lm.get? 8 with _ | i
    · rfl
    rcases h with h | h
    · rw [h] at h4
      exact Option.noConfusion h4
    · rw [h] at h8
      exact Option.noConfusion h8
  · have h : Guarded.gap gapScenario = hypot (3 - 0) (4 - 0) := rfl
    rw [h]
    simp only [hypot]
    rw [show ((3 : ℝ) - 0) ^ 2 + ((4 : ℝ) - 0) ^ 2 = 5 ^ 2 by norm_num,
      Real.sqrt_sq (by norm_num : (0 : ℝ) ≤ 5)]

/-- Witness for C6, discharging the presence and absence hypotheses at
concrete inputs: the spec scenario list and the empty list. -/
theorem gap_spec_witness :
    Guarded.gap gapScenario = hypot ((3 : ℝ) - 0) ((4 : ℝ) - 0) ∧
    Guarded.gap [] = 0 := by
  constructor
  · exact gap_spec.2.1 gapScenario ⟨0, 0, 0⟩ ⟨3, 4, 0⟩ rfl rfl
  · exact gap_spec.2.2.1 [] (Or.inl rfl)

lemma guarded_pairAngles_length_le (lm : List HandLandmark) :
    (Guarded.processFingerPairAngles lm).length ≤ 4 := by
  have h := List.length_filterMap_le
    (fun i =>
      match lm.get? (FINGER_TIPS.getD i 0), lm.get? (FINGER_TIPS.getD (i + 1) 0) with
      | some tip1, some tip2 =>
        some (pairKey (FINGER_TIPS.getD i 0) (FINGER_TIPS.getD (i + 1) 0),
          |atan2 (tip2.y - tip1.y) (tip2.x - tip1.x) * 180 / π|)
      | _, _ => none)
    (List.range (FINGER_TIPS.length - 1))
  simpa [Guarded.processFingerPairAngles, FINGER_TIPS] using h

/-- C9: in the guarded version every per-hand computation is total for a
landmark list of any length: the assembled record always has the 5-entry
angle map, a pair map of at most 4 entries, and landmarks of the reported
length; on an empty landmark list the gap defaults to 0, the pair map is
empty and every finger angle is the default 0. -/
theorem guarded_buildHand_total_wellformed :
    ∀ (now : ℕ) (rh : RawHand),
      (Guarded.buildHand now rh).fingerAngles.entries.length = 5 ∧
      (Guarded.buildHand now rh).fingerPairAngles.length ≤ 4 ∧
      (Guarded.buildHand now rh).landmarks.length = rh.landmarks.length ∧
      (rh.landmarks = [] →
        (Guarded.buildHand now rh).gap = 0 ∧
        (Guarded.buildHand now rh).fingerPairAngles = [] ∧
        (Guarded.buildHand now rh).fingerAngles = ⟨0, 0, 0, 0, 0⟩) := by
  intro now rh
  obtain ⟨rlms, lbl⟩ := rh
  refine ⟨rfl, guarded_pairAngles_length_le _, by simp [Guarded.buildHand], ?_⟩
  intro h
  simp only at h
  subst h
  exact ⟨rfl, rfl, rfl⟩

/-- Witness for C9 at the concrete empty-landmark hand. -/
theorem guarded_buildHand_total_witness :
    (Guarded.buildHand 0 emptyRawHand).fingerAngles.entries.length = 5 ∧
    (Guarded.buildHand 0 emptyRawHand).gap = 0 :=
  ⟨(guarded_buildHand_total_wellformed 0 emptyRawHand).1,
   ((guarded_buildHand_total_wellformed 0 emptyRawHand).2.2.2 rfl).1⟩

lemma guarded_pairs_eq_spec (lm : List HandLandmark) :
    Guarded.processFingerPairAngles lm = PAIRS.filterMap (specPairEntry lm) := by
  rw [show PAIRS = (List.range (FINGER_TIPS.length - 1)).map
      (fun i => (FINGER_TIPS.getD i 0, FINGER_TIPS.getD (i + 1) 0)) from rfl,
    List.filterMap_map]
  rfl

lemma guarded_pairs_values (lm : List HandLandmark) :
    ∀ kv ∈ Guarded.processFingerPairAngles lm, 0 ≤ kv.2 ∧ kv.2 ≤ 180 := by
  intro kv hkv
  rw [guarded_pairs_eq_spec, List.mem_filterMap] at hkv
  obtain ⟨ij, _, hij⟩ := hkv
  revert hij
  unfold specPairEntry
  rcases lm.get? ij.1 with _ | t1
  · intro hij
    exact Option.noConfusion hij
  rcases lm.get? ij.2 with _ | t2
  · intro hij
    exact Option.noConfusion hij
  intro hij
  obtain rfl : kv = (pairKey ij.1 ij.2,
      |atan2 (t2.y - t1.y) (t2.x - t1.x) * 180 / π|) := (Option.some.inj hij).symm
  exact pairValue_bounds _ _

/-- C5: the guarded `processFingerPairAngles` emits exactly one entry per
fixed consecutive fingertip pair (4,8), (8,12), (12,16), (16,20) whose
both tip landmarks are present — so between 0 and 4 entries, keyed
`"<tipIndexA>_<tipIndexB>"`, a pair being omitted (not erroneous) when a
tip is missing — and each value is `abs(atan2(dy, dx) * 180 / pi)`,
hence in [0, 180]. -/
theorem pairAngles_spec :
    ∀ lm : List HandLandmark,
      Guarded.processFingerPairAngles lm = PAIRS.filterMap (specPairEntry lm) ∧
      (Guarded.processFingerPairAngles lm).length ≤ 4 ∧
      ∀ kv ∈ Guarded.processFingerPairAngles lm, 0 ≤ kv.2 ∧ kv.2 ≤ 180 :=
  fun lm => ⟨guarded_pairs_eq_spec lm, guarded_pairAngles_length_le lm,
    guarded_pairs_values lm⟩

/-- Witness for C5 at `pairScenario`, where exactly the pair (4,8) is
present: its entry is in the output and its value is in [0, 180]. -/
theorem pairAngles_spec_witness :
    (pairKey 4 8, |atan2 (lmP.y - lmZero.y) (lmP.x - lmZero.x) * 180 / π|)
        ∈ Guarded.processFingerPairAngles pairScenario ∧
    0 ≤ |atan2 (lmP.y - lmZero.y) (lmP.x - lmZero.x) * 180 / π| ∧
    |atan2 (lmP.y - lmZero.y) (lmP.x - lmZero.x) * 180 / π| ≤ 180 := by
  have hmem : (pairKey 4 8, |atan2 (lmP.y - lmZero.y) (lmP.x - lmZero.x) * 180 / π|)
      ∈ Guarded.processFingerPairAngles pairScenario := by
    rw [show Guarded.processFingerPairAngles pairScenario
        = [(pairKey 4 8,
            |atan2 (lmP.y - lmZero.y) (lmP.x - lmZero.x) * 180 / π|)] from rfl]
    exact List.mem_singleton.mpr rfl
  exact ⟨hmem, (pairAngles_spec pairScenario).2.2 _ hmem⟩
